import Mathlib

/-!
Shallow embedding of `src/hw/ipc_client.c` (virtio-net IPC client from the
lagopus virtio-net-ipc-qemu-1.0 repository).

The module is a client-side session lifecycle: `ipc_init` locates guest RAM,
allocates an `ipc_node` and arms a retry timer; each timer fire runs
`ipc_connect_to_server`, whose worker `connect_to_server` opens a socket,
connects, sends the init message, swaps the fresh descriptor onto the node's
stable descriptor with `dup2`, sends the reconfigure message, reports the
link up and installs `ipc_reader` as the read callback; `ipc_reader`
dispatches kick messages to `virtio_notify` and on receive failure tears the
connection down and re-arms the timer; `ipc_exit` tears everything down.

External collaborators (QEMU event loop, timers, `ipc_node` wire primitives,
`virtio_net_set_link_down`, `virtio_notify`) are represented by an explicit
event trace plus the device-state fields they maintain.  Fallible external
calls (`ipc_socket`, `ipc_connect`, `ipc_client_init_sequence`, `dup2`,
`ipc_client_reconfigure`, `ipc_client_recv`, RAM-block lookup, `malloc`,
`ipc_node_init`) are driven by explicit environment records, one field per
call site, so every exit path of the C code is a branch of the Lean
definition.
-/

namespace IpcClient

/-- `EFAULT` as used by `return -EFAULT` in the source. -/
def EFAULT : Int := 14

/-- The low-memory boundary constant sent in the init message:
`QEMU_BELOW_4G_RAM_END` when the build defines it, else the fixed default
`0xe0000000` (ipc_client.c lines 162-166; we embed the default branch). -/
def lowmem_limit : Nat := 0xe0000000

/-- The `ipc_node` structure as initialised by
`ipc_node_init(c, vdev->nid, fd, ram_fd, ram_size)` (ipc_client.c:80-84).
`fd` is the stable descriptor identifier returned by `ipc_get_fd`. -/
structure ipc_node where
  nid : Nat
  fd : Nat
  ram_fd : Nat
  ram_size : Nat
  deriving DecidableEq, Repr

/-- Message types received by `ipc_reader` (ipc_client.c:128-136): a kick, or
any other value, which hits the `default:` branch. -/
inductive ipc_msg_type where
  | kick
  | invalid
  deriving DecidableEq, Repr

/-- Observable calls the module makes into its environment, in program
order: socket/connect/handshake steps, descriptor operations, event-loop
handler (de)registration, timer operations, link-status reports, queue
notifications, stderr logging, and freeing the node. -/
inductive Event where
  | openSocket (fd : Nat)
  | connectCall (fd : Nat)
  | sendInit (fd : Nat) (lowmem : Nat)
  | dup2Call (oldfd newfd : Nat)
  | closeFd (fd : Nat)
  | shutdownFd (fd : Nat)
  | reconfigure (fd : Nat)
  | setLink (down : Bool)
  | setHandler (fd : Nat) (installed : Bool)
  | armTimer (deadline : Nat)
  | delTimer
  | freeTimer
  | notifyQueue (q : Nat)
  | logErr (s : String)
  | freeNode
  deriving DecidableEq, Repr

/-- The device state visible to this module: the `VirtIODevice` fields the
code reads and writes (`ipc`, `socketpath`, `nid`, `cinterval`, `ts`) plus
the state the external collaborators keep on the device's behalf: whether
the retry timer is armed and for which deadline (`timerDeadline`), the
device link status (`linkDown`, maintained by `virtio_net_set_link_down`),
and on which descriptor `ipc_reader` is registered as read handler
(`fdHandler`, maintained by `qemu_set_fd_handler`).  `nextFd` is the fresh
descriptor number the next successful `ipc_socket` call returns. -/
structure VirtIODevice where
  ipc : Option ipc_node
  socketpath : String
  nid : Nat
  cinterval : Nat
  ts : Bool
  timerDeadline : Option Nat
  linkDown : Bool
  fdHandler : Option Nat
  nextFd : Nat
  deriving DecidableEq, Repr

/-- A device before `ipc_init` runs: no node, no timer, no read handler.
Modelled from the spec: the device facade (`virtio_net_set_link_down`) is
outside this source file; per the spec's scenario table the link of a
never-connected device reads DOWN, so the initial `linkDown` is `true`. -/
def initialDevice : VirtIODevice :=
  { ipc := none
    socketpath := ""
    nid := 0
    cinterval := 0
    ts := false
    timerDeadline := none
    linkDown := true
    fdHandler := none
    nextFd := 3 }

/-- `set_link_status` (ipc_client.c:39-42): forwards to
`virtio_net_set_link_down`. -/
def set_link_status (vdev : VirtIODevice) (link_down : Bool) :
    VirtIODevice × List Event :=
  ({ vdev with linkDown := link_down }, [Event.setLink link_down])

/-- `ipc_set_connector` (ipc_client.c:95-100): re-arm the retry timer for
`now + cinterval * 1000` milliseconds via `qemu_mod_timer`. -/
def ipc_set_connector (vdev : VirtIODevice) (now : Nat) :
    VirtIODevice × List Event :=
  let dl := now + vdev.cinterval * 1000
  ({ vdev with timerDeadline := some dl }, [Event.armTimer dl])

/-- Outcomes of the fallible external calls made by one run of
`connect_to_server`: `sockErr = some e` means `ipc_socket` failed with
`errno = e`; the Booleans tell whether `ipc_connect`,
`ipc_client_init_sequence`, `dup2` and `ipc_client_reconfigure` succeed. -/
structure ConnEnv where
  sockErr : Option Nat
  connectOk : Bool
  initSeqOk : Bool
  dup2Ok : Bool
  reconfigOk : Bool
  deriving DecidableEq, Repr

/-- `connect_to_server` (ipc_client.c:141-201), for a device whose
`vdev->ipc` is the node `c` (the caller dereferences it unconditionally).
Mirrors the C control flow exit path by exit path: socket-open failure
returns `-errno`; connect / init-sequence / dup2 failures jump to `err1`
(close the fresh descriptor, return `-EFAULT`); reconfigure failure jumps
to `err2` (shutdown the stable descriptor, return `-EFAULT`); on success
the link is reported up and `ipc_reader` is installed on the stable
descriptor `c.fd` (after `dup2(fd, newfd); close(fd); fd = newfd`). -/
def connect_to_server (vdev : VirtIODevice) (c : ipc_node) (env : ConnEnv) :
    Int × VirtIODevice × List Event :=
  match env.sockErr with
  | some e => (-(e : Int), vdev, [Event.logErr "failed to open a socket"])
  | none =>
    let fd := vdev.nextFd
    let v : VirtIODevice := { vdev with nextFd := vdev.nextFd + 1 }
    if !env.connectOk then
      (-EFAULT, v,
        [Event.openSocket fd, Event.connectCall fd,
         Event.logErr "failed to connect", Event.closeFd fd])
    else if !env.initSeqOk then
      (-EFAULT, v,
        [Event.openSocket fd, Event.connectCall fd,
         Event.sendInit fd lowmem_limit,
         Event.logErr "init sequence failed", Event.closeFd fd])
    else if !env.dup2Ok then
      (-EFAULT, v,
        [Event.openSocket fd, Event.connectCall fd,
         Event.sendInit fd lowmem_limit, Event.dup2Call fd c.fd,
         Event.logErr "dup2 failed", Event.closeFd fd])
    else if !env.reconfigOk then
      (-EFAULT, v,
        [Event.openSocket fd, Event.connectCall fd,
         Event.sendInit fd lowmem_limit, Event.dup2Call fd c.fd,
         Event.closeFd fd, Event.reconfigure c.fd,
         Event.logErr "reconfigure failed", Event.shutdownFd c.fd])
    else
      (0,
        { v with linkDown := false, fdHandler := some c.fd },
        [Event.openSocket fd, Event.connectCall fd,
         Event.sendInit fd lowmem_limit, Event.dup2Call fd c.fd,
         Event.closeFd fd, Event.reconfigure c.fd,
         Event.setLink false, Event.setHandler c.fd true])

/-- `ipc_connect_to_server` (ipc_client.c:203-211): the timer callback.
Runs `connect_to_server`; on any nonzero result re-arms the retry timer via
`ipc_set_connector`. -/
def ipc_connect_to_server (vdev : VirtIODevice) (c : ipc_node)
    (env : ConnEnv) (now : Nat) : VirtIODevice × List Event :=
  let r := connect_to_server vdev c env
  if r.1 ≠ 0 then
    let a := ipc_set_connector r.2.1 now
    (a.1, r.2.2 ++ a.2)
  else
    (r.2.1, r.2.2)

/-- Outcome of one `ipc_client_recv` call in `ipc_reader`: failure (read
error or orderly peer close, both reported as a negative return), or a
message of some type with a queue index. -/
inductive RecvResult where
  | fail
  | ok (mtype : ipc_msg_type) (curq : Nat)
  deriving DecidableEq, Repr

/-- `ipc_reader` (ipc_client.c:102-139): the read callback.  Returns at once
when `vdev->ipc` is NULL.  On receive failure: log, deregister the handler
on the stable descriptor, shut the socket down, report link down, re-arm
the retry timer.  On a kick: `virtio_notify` for the carried queue index.
On any other message type: log and ignore. -/
def ipc_reader (vdev : VirtIODevice) (r : RecvResult) (now : Nat) :
    VirtIODevice × List Event :=
  match vdev.ipc with
  | none => (vdev, [])
  | some c =>
    match r with
    | RecvResult.fail =>
      let fd := c.fd
      let v1 : VirtIODevice :=
        { vdev with
          fdHandler := if vdev.fdHandler = some fd then none
                       else vdev.fdHandler }
      let v2 := set_link_status v1 true
      let v3 := ipc_set_connector v2.1 now
      (v3.1,
        Event.logErr "can't receive data from a server" ::
          Event.setHandler fd false :: Event.shutdownFd fd ::
          (v2.2 ++ v3.2))
    | RecvResult.ok mtype curq =>
      match mtype with
      | ipc_msg_type.kick => (vdev, [Event.notifyQueue curq])
      | ipc_msg_type.invalid =>
          (vdev, [Event.logErr "invalid ipc message type"])

/-- Outcomes of the fallible calls made by one run of `init_client`:
`ramFound` is the `(block->fd, block->length)` of the RAM block at offset 0
when one exists; `sockErr = some e` means `ipc_socket` failed with
`errno = e`; `mallocOk` tells whether `malloc` succeeds; `nodeInitErr =
some e` means `ipc_node_init` failed with `errno = e`. -/
structure InitEnv where
  ramFound : Option (Nat × Nat)
  sockErr : Option Nat
  mallocOk : Bool
  nodeInitErr : Option Nat
  deriving DecidableEq, Repr

/-- `init_client` (ipc_client.c:44-93): locate guest RAM, open the stable
socket descriptor, allocate and initialise the `ipc_node`, store it in
`vdev->ipc`.  Each failure path returns a negative code and leaves
`vdev->ipc` untouched. -/
def init_client (vdev : VirtIODevice) (env : InitEnv) :
    Int × VirtIODevice × List Event :=
  match env.ramFound with
  | none => (-EFAULT, vdev, [Event.logErr "failed to find ram addr"])
  | some (ram_fd, ram_size) =>
    match env.sockErr with
    | some e => (-(e : Int), vdev, [Event.logErr "failed to open a socket"])
    | none =>
      let fd := vdev.nextFd
      let v : VirtIODevice := { vdev with nextFd := vdev.nextFd + 1 }
      if !env.mallocOk then
        (-EFAULT, v, [Event.openSocket fd, Event.logErr "failed to malloc"])
      else
        match env.nodeInitErr with
        | some e =>
          (-(e : Int), v,
            [Event.openSocket fd, Event.logErr "failed to allocate a client"])
        | none =>
          (0,
            { v with ipc := some ⟨vdev.nid, fd, ram_fd, ram_size⟩ },
            [Event.openSocket fd])

/-- `ipc_init` (ipc_client.c:213-226): store the configuration, run
`init_client`; on failure log the fatal error and return (the C function is
`void`, so the first component of the result is the value the caller
receives: `Unit`); on success create the retry timer (`qemu_new_timer_ms`)
and arm it via `ipc_set_connector` at the current time `now`. -/
def ipc_init (vdev : VirtIODevice) (socketpath : String)
    (nid cinterval : Nat) (env : InitEnv) (now : Nat) :
    Unit × VirtIODevice × List Event :=
  let v0 : VirtIODevice :=
    { vdev with socketpath := socketpath, nid := nid, cinterval := cinterval }
  let r := init_client v0 env
  if r.1 ≠ 0 then
    ((), r.2.1,
      r.2.2 ++ [Event.logErr "Fatal error: can't init ipc node structure"])
  else
    let v1 : VirtIODevice := { r.2.1 with ts := true }
    let a := ipc_set_connector v1 now
    ((), a.1, r.2.2 ++ a.2)

/-- `ipc_exit` (ipc_client.c:228-242): teardown.  A no-op when `vdev->ipc`
is NULL; otherwise delete and free the timer, deregister the read handler
on the stable descriptor, close it, report link down, free the node and
clear `vdev->ipc`. -/
def ipc_exit (vdev : VirtIODevice) : VirtIODevice × List Event :=
  match vdev.ipc with
  | none => (vdev, [])
  | some c =>
    ({ vdev with
        ts := false
        timerDeadline := none
        fdHandler := if vdev.fdHandler = some c.fd then none
                     else vdev.fdHandler
        linkDown := true
        ipc := none },
      [Event.delTimer, Event.freeTimer, Event.setHandler c.fd false,
       Event.closeFd c.fd, Event.setLink true, Event.freeNode])

/-! ## Execution model

A small-step relation over device states.  The event loop fires the timer
callback only while the timer is armed (and the timer exists only after a
successful `ipc_init`, which also set `vdev->ipc`), fires the read callback
only while one is registered, and the device may call `ipc_exit` at any
time.  A one-shot QEMU timer is disarmed by firing. -/

/-- One event-loop step. -/
inductive Step : VirtIODevice → VirtIODevice → Prop where
  | timerFire (v : VirtIODevice) (c : ipc_node) (d : Nat) (env : ConnEnv)
      (hd : v.timerDeadline = some d) (hc : v.ipc = some c) :
      Step v (ipc_connect_to_server { v with timerDeadline := none } c env d).1
  | readerFire (v : VirtIODevice) (r : RecvResult) (now : Nat)
      (hh : v.fdHandler.isSome) :
      Step v (ipc_reader v r now).1
  | exitCall (v : VirtIODevice) :
      Step v (ipc_exit v).1

/-- Device states reachable from a fresh device through `ipc_init` and any
sequence of event-loop steps. -/
inductive Reachable : VirtIODevice → Prop where
  | init (sp : String) (nid cinterval : Nat) (env : InitEnv) (now : Nat) :
      Reachable (ipc_init initialDevice sp nid cinterval env now).2.1
  | step {v v' : VirtIODevice} :
      Reachable v → Step v v' → Reachable v'

/-! ## The absent-peer scenario

`ipc_init` at time 0 with retry interval `I` seconds; every connect attempt
fails at the `ipc_connect` step because no peer is listening. -/

/-- Environment of a connect attempt against an absent peer: the socket
opens, `ipc_connect` fails. -/
def connectFailEnv : ConnEnv :=
  { sockErr := none, connectOk := false, initSeqOk := true,
    dup2Ok := true, reconfigOk := true }

/-- Environment of a fully successful `init_client`. -/
def initOkEnv : InitEnv :=
  { ramFound := some (10, 4096), sockErr := none, mallocOk := true,
    nodeInitErr := none }

/-- Fire the armed timer at its deadline (a one-shot QEMU timer is disarmed
by firing), running the `ipc_connect_to_server` callback with environment
`env`; no-op when the timer is not armed or `vdev->ipc` is not set. -/
def fireTimer (vdev : VirtIODevice) (env : ConnEnv) :
    VirtIODevice × List Event :=
  match vdev.timerDeadline, vdev.ipc with
  | some d, some c =>
      ipc_connect_to_server { vdev with timerDeadline := none } c env d
  | _, _ => (vdev, [])

/-- The times of the first `n` connect attempts (timer fires) from state
`v`, when every attempt fails with environment `connectFailEnv`. -/
def attemptTimesAux : Nat → VirtIODevice → List Nat
  | 0, _ => []
  | n + 1, v =>
    match v.timerDeadline with
    | none => []
    | some d => d :: attemptTimesAux n (fireTimer v connectFailEnv).1

/-- The device right after `ipc_init` at time 0 with retry interval `I`
seconds and a successful `init_client`. -/
def scenarioStart (I : Nat) : VirtIODevice :=
  (ipc_init initialDevice "/tmp/sock" 0 I initOkEnv 0).2.1

/-- The times (ms) of the first `n` connect attempts after initialising at
time 0 with retry interval `I` seconds and a permanently absent peer. -/
def attemptTimes (I n : Nat) : List Nat :=
  attemptTimesAux n (scenarioStart I)

/-- The device state after the first `n` failed attempts of the absent-peer
scenario. -/
def scenarioState (I : Nat) : Nat → VirtIODevice
  | 0 => scenarioStart I
  | n + 1 => (fireTimer (scenarioState I n) connectFailEnv).1

/-! ## Predicates used by the theorems -/

/-- The session invariant tying the device link status to the installed read
callback (CONNECTED in the code is: `ipc_reader` is registered on the stable
descriptor), plus the bookkeeping fact that any registered callback sits on
the stable descriptor of the device's `ipc_node`. -/
def SessionInv (v : VirtIODevice) : Prop :=
  (v.linkDown = false ↔ v.fdHandler.isSome = true) ∧
  (∀ f, v.fdHandler = some f → ∃ c, v.ipc = some c ∧ f = c.fd)

/-- Environment of a fully successful `connect_to_server` run. -/
def okConnEnv : ConnEnv :=
  { sockErr := none, connectOk := true, initSeqOk := true,
    dup2Ok := true, reconfigOk := true }

/-- Some fallible call inside `connect_to_server` fails. -/
def ConnFails (env : ConnEnv) : Prop :=
  env.sockErr ≠ none ∨ env.connectOk = false ∨ env.initSeqOk = false ∨
  env.dup2Ok = false ∨ env.reconfigOk = false

/-- POSIX-conform environments: `errno` is nonzero after a failed call. -/
def SockErrPos (env : ConnEnv) : Prop :=
  ∀ e, env.sockErr = some e → 0 < e

/-- Some fallible call inside `init_client` fails. -/
def InitFails (env : InitEnv) : Prop :=
  env.ramFound = none ∨ env.sockErr ≠ none ∨ env.mallocOk = false ∨
  env.nodeInitErr ≠ none

/-- POSIX-conform environments: `errno` is nonzero after a failed call. -/
def InitErrnoPos (env : InitEnv) : Prop :=
  (∀ e, env.sockErr = some e → 0 < e) ∧
  (∀ e, env.nodeInitErr = some e → 0 < e)

/-- An `init_client` environment where the guest RAM block at offset 0 is
missing. -/
def ramMissingEnv : InitEnv :=
  { ramFound := none, sockErr := none, mallocOk := true, nodeInitErr := none }

/-! ## Helper lemmas -/

theorem fireTimer_connectFail_fields (v : VirtIODevice) (c : ipc_node)
    (d : Nat) (hd : v.timerDeadline = some d) (hc : v.ipc = some c) :
    (fireTimer v connectFailEnv).1.timerDeadline =
      some (d + v.cinterval * 1000) ∧
    (fireTimer v connectFailEnv).1.ipc = v.ipc ∧
    (fireTimer v connectFailEnv).1.cinterval = v.cinterval ∧
    (fireTimer v connectFailEnv).1.linkDown = v.linkDown ∧
    (fireTimer v connectFailEnv).1.fdHandler = v.fdHandler := by
  simp [fireTimer, hd, hc, ipc_connect_to_server, connect_to_server,
        connectFailEnv, ipc_set_connector, EFAULT]

theorem attemptTimesAux_closed (I : Nat) (c : ipc_node) :
    ∀ (n : Nat) (v : VirtIODevice) (d : Nat),
      v.timerDeadline = some d → v.ipc = some c → v.cinterval = I →
      attemptTimesAux n v = (List.range n).map (fun k => d + k * (I * 1000))
  | 0, _, _, _, _, _ => by simp [attemptTimesAux]
  | n + 1, v, d, hd, hc, hI => by
    have hf := fireTimer_connectFail_fields v c d hd hc
    have ih := attemptTimesAux_closed I c n (fireTimer v connectFailEnv).1
      (d + I * 1000) (by rw [hf.1, hI]) (by rw [hf.2.1, hc])
      (by rw [hf.2.2.1, hI])
    unfold attemptTimesAux
    rw [hd, ih, List.range_succ_eq_map, List.map_cons, List.map_map]
    have hfun : ((fun k => d + k * (I * 1000)) ∘ Nat.succ)
        = fun k => d + I * 1000 + k * (I * 1000) := by
      funext k
      simp [Function.comp, Nat.succ_eq_add_one]
      ring
    rw [hfun]
    simp

theorem scenarioStart_fields (I : Nat) :
    (scenarioStart I).timerDeadline = some (I * 1000) ∧
    (scenarioStart I).ipc = some ⟨0, 3, 10, 4096⟩ ∧
    (scenarioStart I).cinterval = I ∧
    (scenarioStart I).linkDown = true := by
  simp [scenarioStart, ipc_init, init_client, initOkEnv, ipc_set_connector,
        initialDevice]

theorem attemptTimes_closed (I n : Nat) :
    attemptTimes I n = (List.range n).map (fun k => (k + 1) * (I * 1000)) := by
  have h := scenarioStart_fields I
  have hmain := attemptTimesAux_closed I ⟨0, 3, 10, 4096⟩ n (scenarioStart I)
    (I * 1000) h.1 h.2.1 h.2.2.1
  rw [attemptTimes, hmain]
  congr 1
  funext k
  ring

theorem scenarioState_props (I : Nat) :
    ∀ n, (scenarioState I n).linkDown = true ∧
      (scenarioState I n).ipc = some ⟨0, 3, 10, 4096⟩ ∧
      (scenarioState I n).timerDeadline = some ((n + 1) * (I * 1000)) ∧
      (scenarioState I n).cinterval = I
  | 0 => by
    have h := scenarioStart_fields I
    refine ⟨h.2.2.2, h.2.1, ?_, h.2.2.1⟩
    rw [scenarioState, h.1]
    congr 1
    ring
  | n + 1 => by
    have ih := scenarioState_props I n
    have hf := fireTimer_connectFail_fields (scenarioState I n)
      ⟨0, 3, 10, 4096⟩ ((n + 1) * (I * 1000)) ih.2.2.1 ih.2.1
    refine ⟨?_, ?_, ?_, ?_⟩
    · rw [scenarioState, hf.2.2.2.1, ih.1]
    · rw [scenarioState, hf.2.1, ih.2.1]
    · rw [scenarioState, hf.1, ih.2.2.2]
      congr 1
      ring
    · rw [scenarioState, hf.2.2.1, ih.2.2.2]

theorem init_client_frame (v : VirtIODevice) (env : InitEnv) :
    (init_client v env).2.1.linkDown = v.linkDown ∧
    (init_client v env).2.1.fdHandler = v.fdHandler := by
  rcases env with ⟨rf, se, mo, ne⟩
  rcases rf with _ | ⟨rfd, rsz⟩ <;> rcases se with _ | e <;> cases mo <;>
    rcases ne with _ | e2 <;> simp [init_client]

theorem ipc_init_frame (v : VirtIODevice) (sp : String) (nid cinterval : Nat)
    (env : InitEnv) (now : Nat) :
    (ipc_init v sp nid cinterval env now).2.1.linkDown = v.linkDown ∧
    (ipc_init v sp nid cinterval env now).2.1.fdHandler = v.fdHandler := by
  have h := init_client_frame
    { v with socketpath := sp, nid := nid, cinterval := cinterval } env
  simp only [ipc_init]
  split
  · exact h
  · simpa [ipc_set_connector] using h

theorem ipc_connect_to_server_fields (v : VirtIODevice) (c : ipc_node)
    (env : ConnEnv) (now : Nat) :
    ((ipc_connect_to_server v c env now).1.linkDown = v.linkDown ∧
     (ipc_connect_to_server v c env now).1.fdHandler = v.fdHandler ∧
     (ipc_connect_to_server v c env now).1.ipc = v.ipc) ∨
    ((ipc_connect_to_server v c env now).1.linkDown = false ∧
     (ipc_connect_to_server v c env now).1.fdHandler = some c.fd ∧
     (ipc_connect_to_server v c env now).1.ipc = v.ipc) := by
  rcases env with ⟨se, co, io, du, re⟩
  rcases se with _ | e
  · cases co <;> cases io <;> cases du <;> cases re <;>
      simp [ipc_connect_to_server, connect_to_server, ipc_set_connector,
            EFAULT]
  · left
    simp only [ipc_connect_to_server, connect_to_server]
    split <;> simp [ipc_set_connector]

theorem connect_step_inv (v : VirtIODevice) (c : ipc_node) (env : ConnEnv)
    (now : Nat) (hc : v.ipc = some c) (hinv : SessionInv v) :
    SessionInv (ipc_connect_to_server v c env now).1 := by
  rcases ipc_connect_to_server_fields v c env now with ⟨h1, h2, h3⟩ |
    ⟨h1, h2, h3⟩
  · exact ⟨by rw [h1, h2]; exact hinv.1,
      fun f hf => by rw [h3]; exact hinv.2 f (h2 ▸ hf)⟩
  · refine ⟨by rw [h1, h2]; simp, fun f hf => ?_⟩
    rw [h2] at hf
    exact ⟨c, by rw [h3, hc], by simpa using hf.symm⟩

theorem reader_step_inv (v : VirtIODevice) (r : RecvResult) (now : Nat)
    (hinv : SessionInv v) : SessionInv (ipc_reader v r now).1 := by
  rcases hc : v.ipc with _ | c
  · simpa [ipc_reader, hc] using hinv
  · rcases r with _ | ⟨mtype, curq⟩
    · have hnone : (if v.fdHandler = some c.fd then none else v.fdHandler)
          = (none : Option Nat) := by
        rcases hf : v.fdHandler with _ | f
        · simp
        · obtain ⟨c', hc', hfd⟩ := hinv.2 f hf
          rw [hc] at hc'
          cases hc'
          simp [hfd]
      refine ⟨?_, ?_⟩
      · simp [ipc_reader, hc, set_link_status, ipc_set_connector, hnone]
      · intro f hf
        simp [ipc_reader, hc, set_link_status, ipc_set_connector, hnone] at hf
    · cases mtype <;> simpa [ipc_reader, hc] using hinv

theorem exit_step_inv (v : VirtIODevice) (hinv : SessionInv v) :
    SessionInv (ipc_exit v).1 := by
  rcases hc : v.ipc with _ | c
  · simpa [ipc_exit, hc] using hinv
  · have hnone : (if v.fdHandler = some c.fd then none else v.fdHandler)
        = (none : Option Nat) := by
      rcases hf : v.fdHandler with _ | f
      · simp
      · obtain ⟨c', hc', hfd⟩ := hinv.2 f hf
        rw [hc] at hc'
        cases hc'
        simp [hfd]
    refine ⟨?_, ?_⟩
    · simp [ipc_exit, hc, hnone]
    · intro f hf
      simp [ipc_exit, hc, hnone] at hf

theorem reachable_inv (v : VirtIODevice) (h : Reachable v) : SessionInv v := by
  induction h with
  | init sp nid cinterval env now =>
    have hf := ipc_init_frame initialDevice sp nid cinterval env now
    refine ⟨?_, ?_⟩
    · rw [hf.1, hf.2]
      simp [initialDevice]
    · intro f hf2
      rw [hf.2] at hf2
      simp [initialDevice] at hf2
  | step hr hs ih =>
    cases hs with
    | timerFire c d env hd hc =>
      refine connect_step_inv _ c env d (by simpa using hc) ?_
      exact ⟨by simpa using ih.1,
        fun f hf => by simpa using ih.2 f (by simpa using hf)⟩
    | readerFire r now hh => exact reader_step_inv _ r now ih
    | exitCall => exact exit_step_inv _ ih

theorem ipc_init_fail_frame (v : VirtIODevice) (sp : String)
    (nid I now : Nat) (env : InitEnv)
    (hfail : InitFails env) (hpos : InitErrnoPos env) :
    (ipc_init v sp nid I env now).2.1.ipc = v.ipc ∧
    (ipc_init v sp nid I env now).2.1.ts = v.ts ∧
    (ipc_init v sp nid I env now).2.1.timerDeadline = v.timerDeadline ∧
    (∀ d, Event.armTimer d ∉ (ipc_init v sp nid I env now).2.2) ∧
    Event.logErr "Fatal error: can't init ipc node structure" ∈
      (ipc_init v sp nid I env now).2.2 := by
  rcases env with ⟨rf, se, mo, ne⟩
  rcases rf with _ | ⟨rfd, rsz⟩
  · simp [ipc_init, init_client, EFAULT]
  · rcases se with _ | e
    · cases mo
      · simp [ipc_init, init_client, EFAULT]
      · rcases ne with _ | e2
        · simp [InitFails] at hfail
        · have he : (0 : Nat) < e2 := hpos.2 e2 rfl
          have he2 : ¬(-(e2 : Int) = 0) := by
            simp
            omega
          simp [ipc_init, init_client, he2]
    · have he : (0 : Nat) < e := hpos.1 e rfl
      have he2 : ¬(-(e : Int) = 0) := by
        simp
        omega
      simp [ipc_init, init_client, he2]

/-! ## The claims -/

/-- Claim C1: in every reachable state, LinkStatus is UP exactly when the
session is CONNECTED (the read callback is installed); the read-callback
failure path reports link down strictly before it re-arms the retry timer
within the same callback; and explicit teardown reports link down and never
re-arms the timer. -/
theorem C1_link_status_iff_connected :
    (∀ v : VirtIODevice, Reachable v →
      (v.linkDown = false ↔ v.fdHandler.isSome = true)) ∧
    (∀ (v : VirtIODevice) (c : ipc_node) (now : Nat), v.ipc = some c →
      ∃ pre mid post : List Event,
        (ipc_reader v RecvResult.fail now).2 =
          pre ++ Event.setLink true :: mid ++
            Event.armTimer (now + v.cinterval * 1000) :: post) ∧
    (∀ (v : VirtIODevice) (c : ipc_node), v.ipc = some c →
      (ipc_exit v).1.linkDown = true ∧
      ∀ d, Event.armTimer d ∉ (ipc_exit v).2) := by
  refine ⟨fun v h => (reachable_inv v h).1, ?_, ?_⟩
  · intro v c now hc
    refine ⟨[Event.logErr "can't receive data from a server",
      Event.setHandler c.fd false, Event.shutdownFd c.fd], [], [], ?_⟩
    simp [ipc_reader, hc, set_link_status, ipc_set_connector]
  · intro v c hc
    constructor
    · simp [ipc_exit, hc]
    · intro d
      simp [ipc_exit, hc]

/-- Witness for C1 at the freshly initialised device of the absent-peer
scenario. -/
theorem C1_link_status_iff_connected_witness :
    ((scenarioStart 1).linkDown = false ↔
      (scenarioStart 1).fdHandler.isSome = true) ∧
    (∃ pre mid post : List Event,
      (ipc_reader (scenarioStart 1) RecvResult.fail 5).2 =
        pre ++ Event.setLink true :: mid ++
          Event.armTimer (5 + (scenarioStart 1).cinterval * 1000) :: post) ∧
    ((ipc_exit (scenarioStart 1)).1.linkDown = true ∧
      ∀ d, Event.armTimer d ∉ (ipc_exit (scenarioStart 1)).2) :=
  ⟨C1_link_status_iff_connected.1 _
      (Reachable.init "/tmp/sock" 0 1 initOkEnv 0),
   C1_link_status_iff_connected.2.1 _ ⟨0, 3, 10, 4096⟩ 5 (by decide),
   C1_link_status_iff_connected.2.2 _ ⟨0, 3, 10, 4096⟩ (by decide)⟩

/-- Claim C2: every retryable error (socket open / connect / init sequence /
dup2 / reconfigure failure in a connect attempt, and a receive failure in
the read callback — which covers both read errors and orderly peer close)
leaves the link reporting DOWN, re-arms the retry timer for the fixed
configured interval, and releases the failed attempt's resources (the fresh
descriptor is closed or the connection is shut down).  On the connect path
the code never touches the link status, so the link reads DOWN after the
failure because it already read DOWN when the attempt started (which the
reachability invariant of C1 guarantees); the hypothesis
`v.linkDown = true` captures that. -/
theorem C2_retryable_errors_converge :
    (∀ (v : VirtIODevice) (c : ipc_node) (env : ConnEnv) (now : Nat),
      ConnFails env → SockErrPos env → v.linkDown = true →
      (ipc_connect_to_server v c env now).1.linkDown = true ∧
      (ipc_connect_to_server v c env now).1.timerDeadline =
        some (now + v.cinterval * 1000) ∧
      (ipc_connect_to_server v c env now).1.fdHandler = v.fdHandler ∧
      (env.sockErr = none →
        Event.closeFd v.nextFd ∈ (ipc_connect_to_server v c env now).2 ∨
        Event.shutdownFd c.fd ∈ (ipc_connect_to_server v c env now).2)) ∧
    (∀ (v : VirtIODevice) (c : ipc_node) (now : Nat), v.ipc = some c →
      (ipc_reader v RecvResult.fail now).1.linkDown = true ∧
      (ipc_reader v RecvResult.fail now).1.timerDeadline =
        some (now + v.cinterval * 1000) ∧
      (v.fdHandler = some c.fd →
        (ipc_reader v RecvResult.fail now).1.fdHandler = none) ∧
      Event.shutdownFd c.fd ∈ (ipc_reader v RecvResult.fail now).2) := by
  constructor
  · intro v c env now hfail hpos hdown
    rcases env with ⟨se, co, io, du, re⟩
    rcases se with _ | e
    · cases co <;> cases io <;> cases du <;> cases re <;>
        simp [ConnFails] at hfail <;>
        simp [ipc_connect_to_server, connect_to_server, ipc_set_connector,
              EFAULT, hdown]
    · have he : (0 : Nat) < e := hpos e rfl
      have he2 : ¬(-(e : Int) = 0) := by
        simp
        omega
      simp [ipc_connect_to_server, connect_to_server, ipc_set_connector,
            he2, hdown]
  · intro v c now hc
    refine ⟨?_, ?_, ?_, ?_⟩
    · simp [ipc_reader, hc, set_link_status, ipc_set_connector]
    · simp [ipc_reader, hc, set_link_status, ipc_set_connector]
    · intro hfd
      simp [ipc_reader, hc, set_link_status, ipc_set_connector, hfd]
    · simp [ipc_reader, hc, set_link_status, ipc_set_connector]

/-- Witness for C2: a connect failure at time 1000 and a read failure at
time 7, both on the scenario's initial device. -/
theorem C2_retryable_errors_converge_witness :
    ((ipc_connect_to_server (scenarioStart 1) ⟨0, 3, 10, 4096⟩ connectFailEnv
        1000).1.linkDown = true ∧
      (ipc_connect_to_server (scenarioStart 1) ⟨0, 3, 10, 4096⟩ connectFailEnv
        1000).1.timerDeadline =
        some (1000 + (scenarioStart 1).cinterval * 1000)) ∧
    Event.shutdownFd 3 ∈
      (ipc_reader (scenarioStart 1) RecvResult.fail 7).2 := by
  have h1 := C2_retryable_errors_converge.1 (scenarioStart 1)
    ⟨0, 3, 10, 4096⟩ connectFailEnv 1000 (Or.inr (Or.inl rfl))
    (fun e he => by simp [connectFailEnv] at he)
    ((scenarioStart_fields 1).2.2.2)
  have h2 := C2_retryable_errors_converge.2 (scenarioStart 1)
    ⟨0, 3, 10, 4096⟩ 7 (by decide)
  exact ⟨⟨h1.1, h1.2.1⟩, h2.2.2.2⟩

/-- Counterexample to claim C3 as stated: initialising at time 0 with retry
interval 1 second and an absent peer, the first connect attempt happens at
t = 1000 ms, not at t ≈ 0 — `ipc_init` arms the timer for
`now + cinterval * 1000` and no attempt is made before it first fires, so
no attempt happens at time 0. -/
theorem C3_counterexample :
    (attemptTimes 1 3).head? = some 1000 ∧ (0 : Nat) ∉ attemptTimes 1 3 := by
  decide

/-- Claim C3 as amended: initialising at time 0 with retry interval `I`
seconds and an absent peer, the k-th connect attempt (0-based) happens at
t = (k+1)·I·1000 ms — the first attempt one full interval after
initialization, subsequent attempts each a further interval later — and
LinkStatus remains DOWN throughout. -/
theorem C3_attempts_start_after_one_interval :
    (∀ I n : Nat, attemptTimes I n =
      (List.range n).map (fun k => (k + 1) * (I * 1000))) ∧
    (∀ I n : Nat, (scenarioState I n).linkDown = true) :=
  ⟨attemptTimes_closed, fun I n => (scenarioState_props I n).1⟩

/-- Claim C4: across any run of consecutive failed connect attempts, the
gap between one attempt and the next is constant and equals the configured
interval in milliseconds (`cinterval * 1000`): no backoff growth, no
shrink. -/
theorem C4_constant_retry_interval (I n k : Nat) (hk : k + 1 < n) :
    (attemptTimes I n).getD (k + 1) 0 =
      (attemptTimes I n).getD k 0 + I * 1000 := by
  rw [attemptTimes_closed]
  have h1 : k < n := Nat.lt_of_succ_lt hk
  rw [List.getD_eq_getElem?_getD, List.getD_eq_getElem?_getD,
      List.getElem?_map, List.getElem?_map,
      List.getElem?_range hk, List.getElem?_range h1]
  simp
  ring

/-- Witness for C4: with a 1-second interval, the second attempt comes
exactly 1000 ms after the first. -/
theorem C4_constant_retry_interval_witness :
    (attemptTimes 1 3).getD 1 0 = (attemptTimes 1 3).getD 0 0 + 1 * 1000 :=
  C4_constant_retry_interval 1 3 0 (by decide)

/-- Claim C5: a fully successful connection attempt performs, in this exact
order: open socket, connect, send the init message with the low-memory
boundary constant, `dup2` the fresh descriptor onto the stable identifier,
close the now-redundant original descriptor, send the reconfigure message,
report link up and install the read callback on the stable identifier; and
each step's failure aborts the attempt before any later step runs. -/
theorem C5_handshake_order (v : VirtIODevice) (c : ipc_node) (env : ConnEnv) :
    ((connect_to_server v c okConnEnv).1 = 0 ∧
     (connect_to_server v c okConnEnv).2.2 =
       [Event.openSocket v.nextFd, Event.connectCall v.nextFd,
        Event.sendInit v.nextFd lowmem_limit, Event.dup2Call v.nextFd c.fd,
        Event.closeFd v.nextFd, Event.reconfigure c.fd,
        Event.setLink false, Event.setHandler c.fd true] ∧
     (connect_to_server v c okConnEnv).2.1.fdHandler = some c.fd ∧
     (connect_to_server v c okConnEnv).2.1.linkDown = false) ∧
    (env.sockErr ≠ none → SockErrPos env →
      (connect_to_server v c env).1 ≠ 0 ∧
      ∀ f, Event.openSocket f ∉ (connect_to_server v c env).2.2) ∧
    (env.sockErr = none → env.connectOk = false →
      (connect_to_server v c env).1 ≠ 0 ∧
      (∀ f l, Event.sendInit f l ∉ (connect_to_server v c env).2.2) ∧
      (∀ a b, Event.dup2Call a b ∉ (connect_to_server v c env).2.2) ∧
      (∀ f, Event.reconfigure f ∉ (connect_to_server v c env).2.2)) ∧
    (env.sockErr = none → env.connectOk = true → env.initSeqOk = false →
      (connect_to_server v c env).1 ≠ 0 ∧
      (∀ a b, Event.dup2Call a b ∉ (connect_to_server v c env).2.2) ∧
      (∀ f, Event.reconfigure f ∉ (connect_to_server v c env).2.2)) ∧
    (env.sockErr = none → env.connectOk = true → env.initSeqOk = true →
      env.dup2Ok = false →
      (connect_to_server v c env).1 ≠ 0 ∧
      (∀ f, Event.reconfigure f ∉ (connect_to_server v c env).2.2) ∧
      (∀ f b, Event.setHandler f b ∉ (connect_to_server v c env).2.2)) ∧
    (env.sockErr = none → env.connectOk = true → env.initSeqOk = true →
      env.dup2Ok = true → env.reconfigOk = false →
      (connect_to_server v c env).1 ≠ 0 ∧
      (connect_to_server v c env).2.1.fdHandler = v.fdHandler ∧
      (∀ f b, Event.setHandler f b ∉ (connect_to_server v c env).2.2) ∧
      Event.setLink false ∉ (connect_to_server v c env).2.2) := by
  rcases env with ⟨se, co, io, du, re⟩
  refine ⟨?_, ?_, ?_, ?_, ?_, ?_⟩
  · simp [connect_to_server, okConnEnv]
  · intro hse hpos
    rcases se with _ | e
    · exact absurd rfl hse
    · have he : (0 : Nat) < e := hpos e rfl
      have he2 : ¬(-(e : Int) = 0) := by
        simp
        omega
      constructor
      · simpa [connect_to_server] using he2
      · intro f
        simp [connect_to_server]
  · intro hse hco
    subst hco
    cases se
    · simp [connect_to_server, EFAULT]
    · simp at hse
  · intro hse hco hio
    subst hco
    subst hio
    cases se
    · simp [connect_to_server, EFAULT]
    · simp at hse
  · intro hse hco hio hdu
    subst hco
    subst hio
    subst hdu
    cases se
    · simp [connect_to_server, EFAULT]
    · simp at hse
  · intro hse hco hio hdu hre
    subst hco
    subst hio
    subst hdu
    subst hre
    cases se
    · simp [connect_to_server, EFAULT]
    · simp at hse

/-- Witness for C5: on the scenario's device a fully successful attempt
returns 0, a connect-failure attempt returns nonzero. -/
theorem C5_handshake_order_witness :
    (connect_to_server (scenarioStart 1) ⟨0, 3, 10, 4096⟩ okConnEnv).1 = 0 ∧
    (connect_to_server (scenarioStart 1) ⟨0, 3, 10, 4096⟩
      connectFailEnv).1 ≠ 0 :=
  ⟨(C5_handshake_order (scenarioStart 1) ⟨0, 3, 10, 4096⟩ okConnEnv).1.1,
   ((C5_handshake_order (scenarioStart 1) ⟨0, 3, 10, 4096⟩
      connectFailEnv).2.2.1 rfl rfl).1⟩

/-- Claim C6 as amended: when the guest RAM region cannot be located or the
node allocation/initialisation fails, initialization fails fatally: the
device keeps no IPC node, no retry timer object is created or armed, no
later connect attempt can ever fire, and the error is logged — but it is
not surfaced to the caller, because `ipc_init` returns `void` (see
`C6_counterexample`). -/
theorem C6_fatal_init_no_retry (sp : String) (nid I now : Nat)
    (env : InitEnv) (hfail : InitFails env) (hpos : InitErrnoPos env) :
    (ipc_init initialDevice sp nid I env now).2.1.ipc = none ∧
    (ipc_init initialDevice sp nid I env now).2.1.ts = false ∧
    (ipc_init initialDevice sp nid I env now).2.1.timerDeadline = none ∧
    (∀ d, Event.armTimer d ∉ (ipc_init initialDevice sp nid I env now).2.2) ∧
    Event.logErr "Fatal error: can't init ipc node structure" ∈
      (ipc_init initialDevice sp nid I env now).2.2 ∧
    (∀ env2, fireTimer (ipc_init initialDevice sp nid I env now).2.1 env2 =
      ((ipc_init initialDevice sp nid I env now).2.1, [])) := by
  have h := ipc_init_fail_frame initialDevice sp nid I now env hfail hpos
  refine ⟨h.1, h.2.1, h.2.2.1, h.2.2.2.1, h.2.2.2.2, ?_⟩
  intro env2
  have hd : (ipc_init initialDevice sp nid I env now).2.1.timerDeadline
      = none := h.2.2.1
  simp [fireTimer, hd]

/-- Witness for C6 at a concrete failing environment: the RAM block at
offset 0 is missing. -/
theorem C6_fatal_init_no_retry_witness :
    InitFails ramMissingEnv ∧
    (ipc_init initialDevice "/tmp/sock" 0 1 ramMissingEnv 0).2.1.ts = false ∧
    Event.logErr "Fatal error: can't init ipc node structure" ∈
      (ipc_init initialDevice "/tmp/sock" 0 1 ramMissingEnv 0).2.2 := by
  have h := C6_fatal_init_no_retry "/tmp/sock" 0 1 0 ramMissingEnv
    (Or.inl rfl) ⟨fun e he => by simp [ramMissingEnv] at he,
      fun e he => by simp [ramMissingEnv] at he⟩
  exact ⟨Or.inl rfl, h.2.1, h.2.2.2.2.1⟩

/-- Counterexample to claim C6 as stated, at the concrete input where the
guest RAM region is missing: the value `ipc_init` hands back to its caller
is identical on the fatal failure and on success — the C declaration is
`void ipc_init(...)`, embedded as the `Unit` first component — even though
the two runs end in observably different device states (`vdev->ipc` unset
versus set).  So the error is logged but not surfaced to the caller of
initialize. -/
theorem C6_counterexample :
    (ipc_init initialDevice "/tmp/sock" 0 1 ramMissingEnv 0).1 =
      (ipc_init initialDevice "/tmp/sock" 0 1 initOkEnv 0).1 ∧
    (ipc_init initialDevice "/tmp/sock" 0 1 ramMissingEnv 0).2.1.ipc =
      none ∧
    (ipc_init initialDevice "/tmp/sock" 0 1 initOkEnv 0).2.1.ipc ≠ none :=
  ⟨rfl, by decide, by decide⟩

/-- Claim C7: teardown is idempotent — with no IPC node (never initialised,
or initialisation failed) `ipc_exit` is a complete no-op, and calling it a
second time right after a first call changes nothing and performs no
release operation. -/
theorem C7_teardown_idempotent :
    (∀ v : VirtIODevice, v.ipc = none → ipc_exit v = (v, [])) ∧
    (∀ v : VirtIODevice,
      (ipc_exit (ipc_exit v).1).1 = (ipc_exit v).1 ∧
      (ipc_exit (ipc_exit v).1).2 = []) := by
  constructor
  · intro v h
    simp [ipc_exit, h]
  · intro v
    rcases hc : v.ipc with _ | c
    · simp [ipc_exit, hc]
    · simp [ipc_exit, hc]

/-- Witness for C7: teardown of a never-initialised device is a no-op, and
a double teardown of an initialised device fixes the state. -/
theorem C7_teardown_idempotent_witness :
    ipc_exit initialDevice = (initialDevice, []) ∧
    (ipc_exit (ipc_exit (scenarioStart 1)).1).1 =
      (ipc_exit (scenarioStart 1)).1 :=
  ⟨C7_teardown_idempotent.1 initialDevice rfl,
   (C7_teardown_idempotent.2 (scenarioStart 1)).1⟩

/-- Claim C8: a kick message carrying queue index `q`, received while
connected (the read callback is installed on the stable descriptor),
produces exactly one `virtio_notify` for queue `q` and nothing else: the
device state — session, link status, handler registration, timer — is
returned unchanged. -/
theorem C8_kick_notifies_once (v : VirtIODevice) (c : ipc_node) (q now : Nat)
    (hc : v.ipc = some c) (_hconn : v.fdHandler = some c.fd) :
    ipc_reader v (RecvResult.ok ipc_msg_type.kick q) now =
      (v, [Event.notifyQueue q]) := by
  simp [ipc_reader, hc]

/-- Witness for C8 on the device right after a successful handshake. -/
theorem C8_kick_notifies_once_witness :
    ipc_reader
        (connect_to_server (scenarioStart 1) ⟨0, 3, 10, 4096⟩ okConnEnv).2.1
        (RecvResult.ok ipc_msg_type.kick 2) 9 =
      ((connect_to_server (scenarioStart 1) ⟨0, 3, 10, 4096⟩ okConnEnv).2.1,
        [Event.notifyQueue 2]) :=
  C8_kick_notifies_once _ ⟨0, 3, 10, 4096⟩ 2 9 (by decide) (by decide)

/-- Claim C9: a connection attempt that fails before the descriptor swap
(socket open, connect, or init-sequence failure) closes at most the newly
opened descriptor and leaves everything else untouched: the session's
stable descriptor slot, the read-handler registration, the link status and
the timer deadline are all exactly as before, and no shutdown, handler
change or descriptor swap happens. -/
theorem C9_preswap_failure_frame (v : VirtIODevice) (c : ipc_node)
    (env : ConnEnv)
    (h : env.sockErr ≠ none ∨ env.connectOk = false ∨
      env.initSeqOk = false) :
    (connect_to_server v c env).2.1.ipc = v.ipc ∧
    (connect_to_server v c env).2.1.fdHandler = v.fdHandler ∧
    (connect_to_server v c env).2.1.linkDown = v.linkDown ∧
    (connect_to_server v c env).2.1.timerDeadline = v.timerDeadline ∧
    (∀ f, Event.closeFd f ∈ (connect_to_server v c env).2.2 →
      f = v.nextFd) ∧
    (∀ f, Event.shutdownFd f ∉ (connect_to_server v c env).2.2) ∧
    (∀ f b, Event.setHandler f b ∉ (connect_to_server v c env).2.2) ∧
    (∀ a b, Event.dup2Call a b ∉ (connect_to_server v c env).2.2) := by
  rcases env with ⟨se, co, io, du, re⟩
  rcases se with _ | e
  · simp at h
    rcases h with h | h
    · subst h
      simp [connect_to_server, EFAULT]
    · cases co
      · simp [connect_to_server, EFAULT]
      · subst h
        simp [connect_to_server, EFAULT]
  · simp [connect_to_server]

/-- Witness for C9 at a concrete connect failure. -/
theorem C9_preswap_failure_frame_witness :
    (connect_to_server (scenarioStart 1) ⟨0, 3, 10, 4096⟩
      connectFailEnv).2.1.fdHandler = (scenarioStart 1).fdHandler ∧
    (∀ f, Event.shutdownFd f ∉
      (connect_to_server (scenarioStart 1) ⟨0, 3, 10, 4096⟩
        connectFailEnv).2.2) := by
  have h := C9_preswap_failure_frame (scenarioStart 1) ⟨0, 3, 10, 4096⟩
    connectFailEnv (Or.inr (Or.inl rfl))
  exact ⟨h.2.1, h.2.2.2.2.2.1⟩

/-- Claim C10: failed initialisation is atomic with respect to the device's
observable IPC state: for any starting device state and any failing
environment, `ipc_init` leaves the Session slot `vdev->ipc` exactly as it
was, creates no timer object, changes no timer deadline, and never emits an
arm-timer operation. -/
theorem C10_init_failure_atomic (v : VirtIODevice) (sp : String)
    (nid I now : Nat) (env : InitEnv)
    (hfail : InitFails env) (hpos : InitErrnoPos env) :
    (ipc_init v sp nid I env now).2.1.ipc = v.ipc ∧
    (ipc_init v sp nid I env now).2.1.ts = v.ts ∧
    (ipc_init v sp nid I env now).2.1.timerDeadline = v.timerDeadline ∧
    (∀ d, Event.armTimer d ∉ (ipc_init v sp nid I env now).2.2) := by
  have h := ipc_init_fail_frame v sp nid I now env hfail hpos
  exact ⟨h.1, h.2.1, h.2.2.1, h.2.2.2.1⟩

/-- Witness for C10 at the missing-RAM environment. -/
theorem C10_init_failure_atomic_witness :
    (ipc_init initialDevice "/tmp/sock" 0 1 ramMissingEnv 0).2.1.ipc =
      initialDevice.ipc ∧
    (∀ d, Event.armTimer d ∉
      (ipc_init initialDevice "/tmp/sock" 0 1 ramMissingEnv 0).2.2) := by
  have h := C10_init_failure_atomic initialDevice "/tmp/sock" 0 1 0
    ramMissingEnv (Or.inl rfl) ⟨fun e he => by simp [ramMissingEnv] at he,
      fun e he => by simp [ramMissingEnv] at he⟩
  exact ⟨h.1, h.2.2.2⟩

end IpcClient
